import Mathlib

/- Verification of the miniGraphics main loop (src/Common/MainLoop.cpp) against its
natural-language specification. The C++ code is shallowly embedded: the option enums,
the parsed command-line state, the image-buffer selection switch (including its
fall-through), the MainLoop control flow and the per-rank run pipeline become Lean
definitions. External collaborators (painter, compositor, visibility sort, matrix
computation, mesh distribution) are function parameters, and the contracts of
repository components whose sources are not provided (blend order-dependence of the
image classes, the Gather collective, the option parser's error flag) are modelled
from the spec where indicated. -/

namespace MiniGraphics

/-- Enum colorType from MainLoop.cpp line 184. -/
inductive ColorType
  | COLOR_UBYTE
  | COLOR_FLOAT
deriving DecidableEq, Repr

/-- Enum depthType from MainLoop.cpp line 185. -/
inductive DepthType
  | DEPTH_FLOAT
  | DEPTH_NONE
deriving DecidableEq, Repr

/-- Enum paintType from MainLoop.cpp line 181. -/
inductive PaintType
  | SIMPLE_RASTER
  | OPENGL
deriving DecidableEq, Repr

/-- Enum distributionType from MainLoop.cpp line 183. -/
inductive DistributionType
  | DUPLICATE
  | DIVIDE
deriving DecidableEq, Repr

/-- The geometry selected by the last --box / --stl-file=<file> option (enum
geometryType plus the filename argument, MainLoop.cpp lines 182, 267-272). -/
inductive GeometryChoice
  | box
  | stlFile (filename : String)
deriving DecidableEq, Repr

/-- The four concrete image encodings instantiated by MainLoop (lines 13-16,
396-427). -/
inductive ImageType
  | ImageRGBAUByteColorFloatDepth
  | ImageRGBFloatColorDepth
  | ImageRGBAUByteColorOnly
  | ImageRGBAFloatColorOnly
deriving DecidableEq, Repr

/-- Modelled from the spec: blendIsOrderDependent per encoding, from the spec's
table in section 3 (the Image class sources are not among the provided files).
Depth-bearing formats blend by z-less and are not order-dependent; color-only
formats blend by alpha-over and are order-dependent. -/
def ImageType.blendIsOrderDependent : ImageType → Bool
  | .ImageRGBAUByteColorFloatDepth => false
  | .ImageRGBFloatColorDepth => false
  | .ImageRGBAUByteColorOnly => true
  | .ImageRGBAFloatColorOnly => true

/-- An image buffer: encoding, full framebuffer dimensions, the half-open pixel
region [regionBegin, regionEnd) it stores, and abstract per-pixel contents. -/
structure Image where
  imgType : ImageType
  width : Nat
  height : Nat
  regionBegin : Nat
  regionEnd : Nat
  data : List Int
deriving DecidableEq, Repr

/-- Modelled from the spec (section 4.2 create): allocate storage for e - b pixels,
all initialized to the clear value (abstracted as 0), with region [b, e). This
embeds Image::createNew as called in run (MainLoop.cpp lines 115-116). -/
def Image.createNew (t : ImageType) (w h b e : Nat) : Image :=
  { imgType := t, width := w, height := h, regionBegin := b, regionEnd := e,
    data := List.replicate (e - b) 0 }

/-- An empty image, as returned to non-root callers of Gather (spec section 4.2:
"Non-root callers return an empty image"): empty region and no stored pixels. -/
def emptyImage (t : ImageType) (w h : Nat) : Image :=
  { imgType := t, width := w, height := h, regionBegin := 0, regionEnd := 0,
    data := [] }

/-- Modelled from the spec (section 4.4): the root's gathered image has region
[0, w*h) and its pixel at index i comes from the contributor whose region
contains i. -/
def gatherAssemble (t : ImageType) (w h : Nat) (strips : List Image) : Image :=
  { imgType := t, width := w, height := h, regionBegin := 0, regionEnd := w * h,
    data := (List.range (w * h)).map (fun i =>
      match strips.find? (fun s => decide (s.regionBegin ≤ i) && decide (i < s.regionEnd)) with
      | some s => s.data.getD (i - s.regionBegin) 0
      | none => 0) }

/-- Modelled from the spec (section 4.4 Gather): "The result on root has region
[0, w*h); non-root returns an empty image." The Gather member of the Image class
is not among the provided sources; MainLoop.cpp line 150 calls it with root 0. -/
def Image.Gather (img : Image) (root rank : Nat) (strips : List Image) : Image :=
  if rank = root then gatherAssemble img.imgType img.width img.height strips
  else emptyImage img.imgType img.width img.height

/-- A triangle mesh: abstract triangle records plus the flat buffer of triangle
color components traversed by getTriangleColorsBuffer (MainLoop.cpp lines
482-486). -/
structure Mesh (T : Type) where
  tris : List T
  colorBuffer : List ℚ
deriving DecidableEq, Repr

/-- The local mesh a rank holds before any geometry is assigned to it. -/
def emptyMesh {T : Type} : Mesh T := { tris := [], colorBuffer := [] }

/-- The color-halving loop of MainLoop.cpp lines 479-487: every triangle color
component in the flat buffer is multiplied by 0.5. -/
def halveTriangleColors {T : Type} (m : Mesh T) : Mesh T :=
  { m with colorBuffer := m.colorBuffer.map (fun c => c * (1 / 2)) }

/-- Option argument status of the option parser (only the two values produced by
the validators in MainLoop.cpp lines 505-563 are modelled). -/
inductive ArgStatus
  | ARG_OK
  | ARG_ILLEGAL
deriving DecidableEq, Repr

/-- True for the six characters C's isspace recognizes in the default locale. -/
def isSpaceChar (c : Char) : Bool :=
  c = ' ' || c = '\t' || c = '\n' || c = '\x0b' || c = '\x0c' || c = '\r'

/-- Decimal digit value of a character, if it is one. -/
def digitVal (c : Char) : Option Nat :=
  if '0' ≤ c && c ≤ '9' then some (c.toNat - '0'.toNat) else none

/-- Accumulate the maximal leading run of decimal digits. -/
def parseDigits : List Char → Nat → Nat
  | [], acc => acc
  | c :: rest, acc =>
    match digitVal c with
    | some d => parseDigits rest (acc * 10 + d)
    | none => acc

/-- C's atoi as used by MainLoop.cpp lines 357, 362, 508: skip leading whitespace,
an optional sign, then the maximal digit run; 0 when no digits are found.
(Overflow of the C int is not modelled; the values involved are small.) -/
def atoi (s : String) : Int :=
  match s.data.dropWhile isSpaceChar with
  | '-' :: rest => -(parseDigits rest 0 : Int)
  | '+' :: rest => (parseDigits rest 0 : Int)
  | cs => (parseDigits cs 0 : Int)

/-- PositiveIntArg from MainLoop.cpp lines 505-526: the argument is accepted when
it is present (non-null) and atoi parses it to a value of at least 1; otherwise
ARG_ILLEGAL. The messageOnError printing is side-effect only and not modelled. -/
def PositiveIntArg (arg : Option String) : ArgStatus :=
  match arg with
  | some a => if atoi a < 1 then ArgStatus.ARG_ILLEGAL else ArgStatus.ARG_OK
  | none => ArgStatus.ARG_ILLEGAL

/-- True when a given option argument is rejected by PositiveIntArg. Absent
options (none) are not validated. -/
def validatorRejects (argOpt : Option String) : Bool :=
  match argOpt with
  | some a =>
    match PositiveIntArg (some a) with
    | ArgStatus.ARG_ILLEGAL => true
    | ArgStatus.ARG_OK => false
  | none => false

/-- The command-line state after option parsing, as MainLoop reads it from the
option parser (MainLoop.cpp lines 324-349, 356-395, 438-493). Each field records
the last occurrence of the corresponding option, or none when absent. -/
structure ParseState where
  rawParseError : Bool
  helpRequested : Bool
  unknownOption : Bool
  nonOptionsCount : Nat
  widthArg : Option String
  heightArg : Option String
  yamlOutputArg : Option String
  writeImage : Option Bool
  painterOpt : Option PaintType
  colorFormatOpt : Option ColorType
  depthFormatOpt : Option DepthType
  geometryOpt : Option GeometryChoice
  overlapArg : Option ℚ
  distributionOpt : Option DistributionType
deriving DecidableEq, Repr

/-- Modelled from the spec ("nonzero if argument parsing ... fails"): the
third-party option parser's parse.error() flag (MainLoop.cpp line 330) is set
when any option's argument validator rejects it; PositiveIntArg validates the
width and height arguments (lines 238, 241). Other parser failures are
abstracted by the rawParseError field. -/
def ParseState.parseError (p : ParseState) : Bool :=
  p.rawParseError || validatorRejects p.widthArg || validatorRejects p.heightArg

/-- The width MainLoop uses: the parsed --width argument, else the default 1100
(MainLoop.cpp lines 315, 356-358). -/
def chosenImageWidth (p : ParseState) : Int :=
  match p.widthArg with
  | some a => atoi a
  | none => 1100

/-- The height MainLoop uses: the parsed --height argument, else the default 900
(MainLoop.cpp lines 316, 361-363). -/
def chosenImageHeight (p : ParseState) : Int :=
  match p.heightArg with
  | some a => atoi a
  | none => 900

/-- Image writing is on by default and set by the last enable/disable option
(MainLoop.cpp lines 318, 366-368). -/
def chosenWriteImages (p : ParseState) : Bool :=
  match p.writeImage with
  | some b => b
  | none => true

/-- The painter switch (MainLoop.cpp lines 370-388): simple raster by default;
the OpenGL case exists only when compiled with MINIGRAPHICS_ENABLE_OPENGL,
otherwise that option value reaches the default case and MainLoop returns 1. -/
def painterSelectionOk (p : ParseState) (openglEnabled : Bool) : Bool :=
  match p.painterOpt with
  | some PaintType.OPENGL => openglEnabled
  | _ => true

/-- The case bodies executed by the imageBuffer switch (MainLoop.cpp lines
396-427), in execution order, as pairs of the color-buffer-format yaml entry
written and the image class constructed. The DEPTH_NONE COLOR_UBYTE case ends
without a break (line 419), so execution falls through into the COLOR_FLOAT body:
both assignments run and the float-color image overwrites the byte-color one.
Every other case ends with a break. -/
def imageBufferAssignments : DepthType → ColorType → List (String × ImageType)
  | DepthType.DEPTH_FLOAT, ColorType.COLOR_UBYTE =>
      [("byte", ImageType.ImageRGBAUByteColorFloatDepth)]
  | DepthType.DEPTH_FLOAT, ColorType.COLOR_FLOAT =>
      [("float", ImageType.ImageRGBFloatColorDepth)]
  | DepthType.DEPTH_NONE, ColorType.COLOR_UBYTE =>
      [("byte", ImageType.ImageRGBAUByteColorOnly),
       ("float", ImageType.ImageRGBAFloatColorOnly)]
  | DepthType.DEPTH_NONE, ColorType.COLOR_FLOAT =>
      [("float", ImageType.ImageRGBAFloatColorOnly)]

/-- The image encoding MainLoop ends up with: the last assignment executed by the
switch wins (the default value is never used since every case assigns at least
once). -/
def selectImageBuffer (colorFormat : ColorType) (depthFormat : DepthType) : ImageType :=
  (((imageBufferAssignments depthFormat colorFormat).map Prod.snd).getLast?).getD
    ImageType.ImageRGBAUByteColorFloatDepth

/-- The environment MainLoop runs in: results of the collaborator calls it makes
(compositor->setOptions, ReadSTL, MakeBox, meshScatter, meshBroadcast) and the
build configuration. The distribution functions map the locally loaded mesh and
the rank to the post-distribution local mesh, abstracting the MPI collectives. -/
structure MainEnv (T : Type) where
  compositorAccepts : Bool
  openglEnabled : Bool
  stlRead : String → Option (Mesh T)
  makeBox : Mesh T
  meshScatter : Mesh T → Nat → Mesh T
  meshBroadcast : Mesh T → ℚ → Nat → Mesh T

/-- Geometry loading (MainLoop.cpp lines 436-463): rank 0 reads the STL file when
the last geometry option is --stl-file (none on read failure) and builds the box
otherwise; other ranks read nothing. -/
def loadGeometry {T : Type} (p : ParseState) (env : MainEnv T) (rank : Nat) :
    Option (Mesh T) :=
  if rank = 0 then
    match p.geometryOpt with
    | some (GeometryChoice.stlFile f) => env.stlRead f
    | _ => some env.makeBox
  else some emptyMesh

/-- The configuration MainLoop hands to run (MainLoop.cpp line 489) together with
the mesh state before and after the color-halving step. -/
structure RunConfig (T : Type) where
  imageWidth : Int
  imageHeight : Int
  imageBuffer : Image
  writeImages : Bool
  distributedMesh : Mesh T
  meshToRun : Mesh T
  yamlFilename : String
deriving DecidableEq, Repr

/-- The outcome of MainLoop on one rank: an early return with an exit code, or
normal completion (which returns 0 after running the pipeline). -/
inductive MainOutcome (T : Type)
  | exit (code : Int)
  | completed (cfg : RunConfig T)
deriving DecidableEq, Repr

/-- The process exit status of a MainLoop outcome; normal completion returns 0
(MainLoop.cpp line 501). -/
def MainOutcome.exitCode {T : Type} : MainOutcome T → Int
  | .exit c => c
  | .completed _ => 0

/-- The image encoding of the buffer built by a completed MainLoop, if any. -/
def MainOutcome.imageTypeOf {T : Type} : MainOutcome T → Option ImageType
  | .completed cfg => some cfg.imageBuffer.imgType
  | .exit _ => none

/-- MainLoop (MainLoop.cpp lines 204-502) on one rank: the early-return checks in
source order (parse error line 330, help line 334, unknown option line 339, stray
non-options line 345, compositor setOptions line 351, painter switch default line
382), then the width/height/write-image/format settings, the image-buffer switch,
geometry loading on rank 0 (returning 1 on STL failure, line 445), distribution,
the color-halving step for order-dependent blending, and normal completion. -/
def MainLoop {T : Type} (p : ParseState) (env : MainEnv T) (rank : Nat) :
    MainOutcome T :=
  if p.parseError then .exit 1
  else if p.helpRequested then .exit 0
  else if p.unknownOption then .exit 1
  else if 0 < p.nonOptionsCount then .exit 1
  else if !env.compositorAccepts then .exit 1
  else if !painterSelectionOk p env.openglEnabled then .exit 1
  else
    let imageWidth := chosenImageWidth p
    let imageHeight := chosenImageHeight p
    let colorFormat := p.colorFormatOpt.getD ColorType.COLOR_UBYTE
    let depthFormat := p.depthFormatOpt.getD DepthType.DEPTH_FLOAT
    let imageBuffer := Image.createNew (selectImageBuffer colorFormat depthFormat)
        imageWidth.toNat imageHeight.toNat 0 (imageWidth.toNat * imageHeight.toNat)
    match loadGeometry p env rank with
    | none => .exit 1
    | some mesh =>
      let overlap := p.overlapArg.getD (-(1 / 20 : ℚ))
      let distributed :=
        if p.distributionOpt = some DistributionType.DIVIDE
        then env.meshScatter mesh rank
        else env.meshBroadcast mesh overlap rank
      let meshToRun :=
        if imageBuffer.imgType.blendIsOrderDependent
        then halveTriangleColors distributed
        else distributed
      .completed
        { imageWidth := imageWidth, imageHeight := imageHeight,
          imageBuffer := imageBuffer, writeImages := chosenWriteImages p,
          distributedMesh := distributed, meshToRun := meshToRun,
          yamlFilename := p.yamlOutputArg.getD "timing.yaml" }

/-- The external collaborators the run function calls (MainLoop.cpp lines 50-164):
the visibility sort (meshVisibilitySort, line 128), the modelview/projection
computation from the globally reduced bounds (lines 66-113, glm floating-point
math abstracted into one function of all local meshes and the image dimensions),
the painter (which fills the pixel contents of the local image in place), and the
compositor's collective compose (one strip per rank from all ranks' local
images). -/
structure Collaborators (T V : Type) where
  meshVisibilitySort : Mesh T → V → V → Mesh T
  computeMatrices : List (Mesh T) → Nat → Nat → V × V
  painter : Mesh T → Image → V → V → List Int
  compose : List Image → List Image

/-- The wall-clock values the three Timer objects of run observe (paint-seconds,
composite-seconds, total-seconds); they are environment input, not computed. -/
structure TimerEnv where
  paintSeconds : ℚ
  compositeSeconds : ℚ
  totalSeconds : ℚ
deriving DecidableEq, Repr

/-- A file written by SavePPM in run (MainLoop.cpp lines 155-163):
local_painting<rank>.ppm on every rank, composite.ppm on rank 0 only. -/
inductive SavedFile
  | localPainting (rank : Nat)
  | composite
deriving DecidableEq, Repr

/-- What one rank's execution of run produces and observes: the mesh argument the
painter received, the painted local image (also the image handed to compose), the
root argument of the Gather call, the gathered image, the files saved, and the
timing entries written to yaml. -/
structure RankTrace (T : Type) where
  painterMeshArg : Mesh T
  localImage : Image
  composeInput : Image
  gatherRootArg : Nat
  fullCompositeImage : Image
  savedFiles : List SavedFile
  yamlTimings : List (String × ℚ)
deriving Repr

/-- The run function (MainLoop.cpp lines 50-164) as executed on one rank, given
every rank's post-distribution mesh (the collectives need them all): create the
full-screen local image with region [0, width*height) (lines 115-116), paint the
visibility-sorted mesh when the encoding's blend is order-dependent and the
unsorted mesh otherwise (lines 127-134), compose all ranks' local images into
strips (lines 147-148), Gather with root 0 (line 150), and save the sanity-check
images when writeImages is set (lines 155-163). -/
def runRank {T V : Type} (C : Collaborators T V) (meshes : List (Mesh T))
    (imageBuffer : Image) (writeImages : Bool) (timers : TimerEnv) (rank : Nat) :
    RankTrace T :=
  let imageWidth := imageBuffer.width
  let imageHeight := imageBuffer.height
  let mats := C.computeMatrices meshes imageWidth imageHeight
  let modelview := mats.1
  let projection := mats.2
  let mesh := meshes.getD rank emptyMesh
  let localImage := Image.createNew imageBuffer.imgType imageWidth imageHeight 0
      (imageWidth * imageHeight)
  let painterMeshArg :=
    if localImage.imgType.blendIsOrderDependent
    then C.meshVisibilitySort mesh modelview projection
    else mesh
  let painted :=
    { localImage with data := C.painter painterMeshArg localImage modelview projection }
  let allPainted := (List.range meshes.length).map (fun r =>
    let m := meshes.getD r emptyMesh
    let pm :=
      if localImage.imgType.blendIsOrderDependent
      then C.meshVisibilitySort m modelview projection
      else m
    { localImage with data := C.painter pm localImage modelview projection })
  let strips := C.compose allPainted
  let compositeImage := strips.getD rank (emptyImage imageBuffer.imgType imageWidth imageHeight)
  let fullCompositeImage := compositeImage.Gather 0 rank strips
  let savedFiles :=
    if writeImages then
      [SavedFile.localPainting rank] ++ (if rank = 0 then [SavedFile.composite] else [])
    else []
  { painterMeshArg := painterMeshArg, localImage := painted, composeInput := painted,
    gatherRootArg := 0, fullCompositeImage := fullCompositeImage,
    savedFiles := savedFiles,
    yamlTimings := [("paint-seconds", timers.paintSeconds),
                    ("composite-seconds", timers.compositeSeconds),
                    ("total-seconds", timers.totalSeconds)] }

/-- A parse state in which no option was given: every default applies. -/
def pDefault : ParseState :=
  { rawParseError := false, helpRequested := false, unknownOption := false,
    nonOptionsCount := 0, widthArg := none, heightArg := none, yamlOutputArg := none,
    writeImage := none, painterOpt := none, colorFormatOpt := none,
    depthFormatOpt := none, geometryOpt := none, overlapArg := none,
    distributionOpt := none }

/-- A small concrete mesh over the unit triangle type, with two color components. -/
def meshU : Mesh Unit := { tris := [()], colorBuffer := [1, 1 / 2] }

/-- A concrete environment: compositor accepts, OpenGL not compiled, STL reads
fail, box building yields meshU, distribution leaves the local mesh unchanged. -/
def envU : MainEnv Unit :=
  { compositorAccepts := true, openglEnabled := false,
    stlRead := fun _ => none, makeBox := meshU,
    meshScatter := fun m _ => m, meshBroadcast := fun m _ _ => m }

/-- A placeholder configuration used as the default of cfgOf. -/
def dummyConfig : RunConfig Unit :=
  { imageWidth := 0, imageHeight := 0,
    imageBuffer := emptyImage ImageType.ImageRGBAUByteColorFloatDepth 0 0,
    writeImages := false, distributedMesh := emptyMesh, meshToRun := emptyMesh,
    yamlFilename := "" }

/-- The configuration of a completed outcome, or the supplied default. -/
def cfgOf {T : Type} (o : MainOutcome T) (d : RunConfig T) : RunConfig T :=
  match o with
  | .completed cfg => cfg
  | .exit _ => d

/-- The configuration MainLoop builds from pDefault and envU on rank 0. -/
def cfgDefault : RunConfig Unit := cfgOf (MainLoop pDefault envU 0) dummyConfig

/-- The configuration MainLoop builds from pDefault and envU on rank 1 (the rank
loads no geometry, so the identity distribution leaves the empty mesh). -/
def cfgDefaultRank1 : RunConfig Unit := cfgOf (MainLoop pDefault envU 1) dummyConfig

/-- Parse state selecting --depth-none with --color-ubyte (C1's input). -/
def pC1 : ParseState :=
  { pDefault with colorFormatOpt := some ColorType.COLOR_UBYTE,
                  depthFormatOpt := some DepthType.DEPTH_NONE }

/-- Parse state in which --help was given together with an unknown option. -/
def pHelpUnknown : ParseState :=
  { pDefault with helpRequested := true, unknownOption := true }

/-- Parse state in which the option parser itself reported an error. -/
def pParseErr : ParseState := { pDefault with rawParseError := true }

/-- Parse state with an unknown option and no help request. -/
def pUnknown : ParseState := { pDefault with unknownOption := true }

/-- Parse state with --stl-file naming a file whose read will fail in envU. -/
def pStl : ParseState :=
  { pDefault with geometryOpt := some (GeometryChoice.stlFile "missing.stl") }

/-- Parse state with --width=0, rejected by PositiveIntArg. -/
def pWidthZero : ParseState := { pDefault with widthArg := some "0" }

/-- Parse state with --depth-none only (order-dependent blending; C10's input). -/
def pDepthNone : ParseState :=
  { pDefault with depthFormatOpt := some DepthType.DEPTH_NONE }

/-- The configuration MainLoop builds from pDepthNone and envU on rank 0: the
fall-through selects the float color-only buffer and the colors are halved. -/
def cfgDepthNone : RunConfig Unit := cfgOf (MainLoop pDepthNone envU 0) dummyConfig

/-- Concrete trivial collaborators over unit matrix and triangle types. -/
def collabU : Collaborators Unit Unit :=
  { meshVisibilitySort := fun m _ _ => m,
    computeMatrices := fun _ _ _ => ((), ()),
    painter := fun _ img _ _ => img.data,
    compose := fun imgs => imgs }

/-- A concrete 2 by 2 depth-format image buffer. -/
def bufU : Image := Image.createNew ImageType.ImageRGBAUByteColorFloatDepth 2 2 0 4

/-- Concrete timer observations. -/
def timersU : TimerEnv := { paintSeconds := 1, compositeSeconds := 2, totalSeconds := 3 }

/-- Helper: the fields of the configuration a completed MainLoop hands to run, in
terms of the parse state. -/
theorem mainLoop_completed_fields {T : Type} (p : ParseState) (env : MainEnv T)
    (rank : Nat) (cfg : RunConfig T) (h : MainLoop p env rank = .completed cfg) :
    cfg.imageWidth = chosenImageWidth p ∧
    cfg.imageHeight = chosenImageHeight p ∧
    cfg.imageBuffer = Image.createNew
        (selectImageBuffer (p.colorFormatOpt.getD ColorType.COLOR_UBYTE)
          (p.depthFormatOpt.getD DepthType.DEPTH_FLOAT))
        (chosenImageWidth p).toNat (chosenImageHeight p).toNat 0
        ((chosenImageWidth p).toNat * (chosenImageHeight p).toNat) ∧
    cfg.meshToRun = (if cfg.imageBuffer.imgType.blendIsOrderDependent
                     then halveTriangleColors cfg.distributedMesh
                     else cfg.distributedMesh) := by
  simp only [MainLoop] at h
  split at h
  · simp at h
  split at h
  · simp at h
  split at h
  · simp at h
  split at h
  · simp at h
  split at h
  · simp at h
  split at h
  · simp at h
  split at h
  · simp at h
  · rename_i mesh hmesh
    rw [MainOutcome.completed.injEq] at h
    subst h
    exact ⟨rfl, rfl, rfl, rfl⟩

/-- C1: the claim says the depth-none with color-ubyte run constructs the
ImageRGBAUByteColorOnly buffer with no fall-through between the four encodings.
In the code the DEPTH_NONE COLOR_UBYTE case lacks a break, so both of its case
bodies execute and the buffer MainLoop actually ends up with is
ImageRGBAFloatColorOnly: this theorem evaluates the embedded switch and a full
MainLoop run at the failing input, exhibiting the fall-through. -/
theorem c1_depth_none_color_ubyte_falls_through :
    selectImageBuffer ColorType.COLOR_UBYTE DepthType.DEPTH_NONE =
      ImageType.ImageRGBAFloatColorOnly ∧
    imageBufferAssignments DepthType.DEPTH_NONE ColorType.COLOR_UBYTE =
      [("byte", ImageType.ImageRGBAUByteColorOnly),
       ("float", ImageType.ImageRGBAFloatColorOnly)] ∧
    ImageType.ImageRGBAFloatColorOnly ≠ ImageType.ImageRGBAUByteColorOnly ∧
    (MainLoop pC1 envU 0).imageTypeOf = some ImageType.ImageRGBAFloatColorOnly :=
  ⟨rfl, rfl, by decide, rfl⟩

/-- C2: on every rank, the painter is invoked with the visibility-sorted mesh
(meshVisibilitySort under the run's modelview and projection) exactly when the
chosen encoding's blend operator is order-dependent, and with the unsorted mesh
otherwise. -/
theorem c2_painter_sorted_iff_order_dependent {T V : Type} (C : Collaborators T V)
    (meshes : List (Mesh T)) (buf : Image) (wi : Bool) (tm : TimerEnv) (rank : Nat) :
    (runRank C meshes buf wi tm rank).painterMeshArg =
      (if buf.imgType.blendIsOrderDependent
       then C.meshVisibilitySort (meshes.getD rank emptyMesh)
              (C.computeMatrices meshes buf.width buf.height).1
              (C.computeMatrices meshes buf.width buf.height).2
       else meshes.getD rank emptyMesh) := rfl

/-- C6: on every rank, the local image handed to the compositor's compose is
full-screen: it is created over the full framebuffer dimensions with region
[0, width*height). -/
theorem c6_compose_input_full_region {T V : Type} (C : Collaborators T V)
    (meshes : List (Mesh T)) (buf : Image) (wi : Bool) (tm : TimerEnv) (rank : Nat) :
    (runRank C meshes buf wi tm rank).composeInput.regionBegin = 0 ∧
    (runRank C meshes buf wi tm rank).composeInput.regionEnd = buf.width * buf.height ∧
    (runRank C meshes buf wi tm rank).composeInput.width = buf.width ∧
    (runRank C meshes buf wi tm rank).composeInput.height = buf.height :=
  ⟨rfl, rfl, rfl, rfl⟩

/-- C7: Gather is always invoked with root rank 0; the gathered image on rank 0
has the full region [0, width*height); when image writing is enabled only rank 0
saves the composited image; and every non-root rank obtains an empty image from
Gather. -/
theorem c7_gather_root_and_nonroot_empty {T V : Type} (C : Collaborators T V)
    (meshes : List (Mesh T)) (buf : Image) (wi : Bool) (tm : TimerEnv) (rank : Nat)
    (hr : rank ≠ 0) :
    (runRank C meshes buf wi tm rank).gatherRootArg = 0 ∧
    (runRank C meshes buf wi tm 0).fullCompositeImage.regionBegin = 0 ∧
    (runRank C meshes buf wi tm 0).fullCompositeImage.regionEnd =
      (runRank C meshes buf wi tm 0).fullCompositeImage.width *
        (runRank C meshes buf wi tm 0).fullCompositeImage.height ∧
    (wi = true → SavedFile.composite ∈ (runRank C meshes buf wi tm 0).savedFiles) ∧
    (runRank C meshes buf wi tm rank).fullCompositeImage.regionBegin = 0 ∧
    (runRank C meshes buf wi tm rank).fullCompositeImage.regionEnd = 0 ∧
    (runRank C meshes buf wi tm rank).fullCompositeImage.data = [] ∧
    SavedFile.composite ∉ (runRank C meshes buf wi tm rank).savedFiles := by
  refine ⟨rfl, rfl, rfl, ?_, ?_, ?_, ?_, ?_⟩
  · intro hwi
    simp [runRank, hwi]
  · simp [runRank, Image.Gather, hr, emptyImage]
  · simp [runRank, Image.Gather, hr, emptyImage]
  · simp [runRank, Image.Gather, hr, emptyImage]
  · cases wi <;> simp [runRank, hr]

/-- C8: for a fixed configuration (meshes, view and painting collaborators,
encoding, process count, rank), two executions of the paint-compose-gather
pipeline produce bit-identical images: the pipeline output is a function of the
configuration alone, and in particular the timer observations (the only
environment-dependent inputs of run) do not influence any image or file, only
the yaml timing entries. -/
theorem c8_pipeline_deterministic {T V : Type} (C : Collaborators T V)
    (meshes : List (Mesh T)) (buf : Image) (wi : Bool) (tm1 tm2 : TimerEnv)
    (rank : Nat) :
    (runRank C meshes buf wi tm1 rank).fullCompositeImage =
      (runRank C meshes buf wi tm2 rank).fullCompositeImage ∧
    (runRank C meshes buf wi tm1 rank).localImage =
      (runRank C meshes buf wi tm2 rank).localImage ∧
    (runRank C meshes buf wi tm1 rank).composeInput =
      (runRank C meshes buf wi tm2 rank).composeInput ∧
    (runRank C meshes buf wi tm1 rank).painterMeshArg =
      (runRank C meshes buf wi tm2 rank).painterMeshArg ∧
    (runRank C meshes buf wi tm1 rank).savedFiles =
      (runRank C meshes buf wi tm2 rank).savedFiles :=
  ⟨rfl, rfl, rfl, rfl, rfl⟩

/-- C3 counterexample: when --help is given together with an unknown option, the
help check (line 334) precedes the unknown-option check (line 339), so MainLoop
returns 0 even though an unknown option is present, contradicting the claim that
an unknown option always yields a nonzero status. -/
theorem c3_help_unknown_counterexample :
    pHelpUnknown.unknownOption = true ∧ pHelpUnknown.parseError = false ∧
    (MainLoop pHelpUnknown envU 0).exitCode = 0 :=
  ⟨rfl, rfl, rfl⟩

/-- C3 as amended: MainLoop returns 0 on normal completion; it returns nonzero on
a parser error unconditionally, and - provided --help was not requested - also
when an unknown option or a stray non-option argument is present, when the
compositor rejects its options, and when reading the STL geometry fails on
rank 0. -/
theorem c3_exit_status :
    (∀ (T : Type) (p : ParseState) (env : MainEnv T) (rank : Nat) (cfg : RunConfig T),
      MainLoop p env rank = .completed cfg → (MainLoop p env rank).exitCode = 0) ∧
    (∀ (T : Type) (p : ParseState) (env : MainEnv T) (rank : Nat),
      p.parseError = true → (MainLoop p env rank).exitCode ≠ 0) ∧
    (∀ (T : Type) (p : ParseState) (env : MainEnv T) (rank : Nat),
      p.helpRequested = false → p.unknownOption = true →
      (MainLoop p env rank).exitCode ≠ 0) ∧
    (∀ (T : Type) (p : ParseState) (env : MainEnv T) (rank : Nat),
      p.helpRequested = false → 0 < p.nonOptionsCount →
      (MainLoop p env rank).exitCode ≠ 0) ∧
    (∀ (T : Type) (p : ParseState) (env : MainEnv T) (rank : Nat),
      p.helpRequested = false → env.compositorAccepts = false →
      (MainLoop p env rank).exitCode ≠ 0) ∧
    (∀ (T : Type) (p : ParseState) (env : MainEnv T) (f : String),
      p.helpRequested = false → p.geometryOpt = some (GeometryChoice.stlFile f) →
      env.stlRead f = none → (MainLoop p env 0).exitCode ≠ 0) := by
  refine ⟨?_, ?_, ?_, ?_, ?_, ?_⟩
  · intro T p env rank cfg h
    rw [h]
    rfl
  · intro T p env rank hp
    simp [MainLoop, hp, MainOutcome.exitCode]
  · intro T p env rank hh hu
    cases hpe : p.parseError <;>
      simp [MainLoop, hpe, hh, hu, MainOutcome.exitCode]
  · intro T p env rank hh hn
    cases hpe : p.parseError <;> cases hu : p.unknownOption <;>
      simp [MainLoop, hpe, hh, hu, hn, MainOutcome.exitCode]
  · intro T p env rank hh hc
    cases hpe : p.parseError <;> cases hu : p.unknownOption <;>
      by_cases hn : 0 < p.nonOptionsCount <;>
        simp [MainLoop, hpe, hh, hu, hn, hc, MainOutcome.exitCode]
  · intro T p env f hh hg hread
    cases hpe : p.parseError <;> cases hu : p.unknownOption <;>
      by_cases hn : 0 < p.nonOptionsCount <;>
        cases hc : env.compositorAccepts <;>
          cases h5 : painterSelectionOk p env.openglEnabled <;>
            simp [MainLoop, hpe, hh, hu, hn, hc, h5, loadGeometry, hg, hread,
                  MainOutcome.exitCode]

/-- C3 witness: the amended exit-status theorem applied at concrete inputs - a
default run completes with status 0, and a parser error, an unknown option, and
a failing STL read each yield a nonzero status. -/
theorem c3_exit_status_witness :
    (MainLoop pDefault envU 0).exitCode = 0 ∧
    (MainLoop pParseErr envU 0).exitCode ≠ 0 ∧
    (MainLoop pUnknown envU 0).exitCode ≠ 0 ∧
    (MainLoop pStl envU 0).exitCode ≠ 0 :=
  ⟨c3_exit_status.1 Unit pDefault envU 0 cfgDefault rfl,
   c3_exit_status.2.1 Unit pParseErr envU 0 rfl,
   c3_exit_status.2.2.1 Unit pUnknown envU 0 rfl rfl,
   c3_exit_status.2.2.2.2.2 Unit pStl envU "missing.stl" rfl rfl rfl⟩

/-- C4: when no width or height option is given, the image buffer is created
with width 1100 and height 900; and for a fixed argument vector the dimensions
are the same on every participating process (they depend only on the parsed
arguments, not on the rank or environment). -/
theorem c4_default_image_dimensions :
    (∀ (T : Type) (p : ParseState) (env : MainEnv T) (rank : Nat) (cfg : RunConfig T),
      p.widthArg = none → p.heightArg = none →
      MainLoop p env rank = .completed cfg →
      cfg.imageBuffer.width = 1100 ∧ cfg.imageBuffer.height = 900 ∧
      cfg.imageWidth = 1100 ∧ cfg.imageHeight = 900) ∧
    (∀ (T : Type) (p : ParseState) (env1 env2 : MainEnv T) (r1 r2 : Nat)
      (cfg1 cfg2 : RunConfig T),
      MainLoop p env1 r1 = .completed cfg1 → MainLoop p env2 r2 = .completed cfg2 →
      cfg1.imageBuffer.width = cfg2.imageBuffer.width ∧
      cfg1.imageBuffer.height = cfg2.imageBuffer.height ∧
      cfg1.imageWidth = cfg2.imageWidth ∧ cfg1.imageHeight = cfg2.imageHeight) := by
  constructor
  · intro T p env rank cfg hw hh hc
    obtain ⟨u1, u2, u3, _⟩ := mainLoop_completed_fields p env rank cfg hc
    refine ⟨?_, ?_, ?_, ?_⟩
    · rw [u3]
      show (chosenImageWidth p).toNat = 1100
      rw [chosenImageWidth, hw]
      rfl
    · rw [u3]
      show (chosenImageHeight p).toNat = 900
      rw [chosenImageHeight, hh]
      rfl
    · rw [u1, chosenImageWidth, hw]
    · rw [u2, chosenImageHeight, hh]
  · intro T p env1 env2 r1 r2 cfg1 cfg2 h1 h2
    obtain ⟨u1, u2, u3, _⟩ := mainLoop_completed_fields p env1 r1 cfg1 h1
    obtain ⟨v1, v2, v3, _⟩ := mainLoop_completed_fields p env2 r2 cfg2 h2
    refine ⟨?_, ?_, ?_, ?_⟩
    · rw [u3, v3]
    · rw [u3, v3]
    · rw [u1, v1]
    · rw [u2, v2]

/-- C4 witness: with no options given the buffer is 1100 by 900, and two runs of
the same arguments on different ranks and environments agree on the width. -/
theorem c4_default_image_dimensions_witness :
    cfgDefault.imageBuffer.width = 1100 ∧ cfgDefault.imageBuffer.height = 900 ∧
    cfgDefault.imageBuffer.width = cfgDefaultRank1.imageBuffer.width :=
  ⟨(c4_default_image_dimensions.1 Unit pDefault envU 0 cfgDefault rfl rfl rfl).1,
   (c4_default_image_dimensions.1 Unit pDefault envU 0 cfgDefault rfl rfl rfl).2.1,
   (c4_default_image_dimensions.2 Unit pDefault envU envU 0 1 cfgDefault
      cfgDefaultRank1 rfl rfl).1⟩

/-- C5: when neither a color-format nor a depth-format option is given, the
defaults COLOR_UBYTE and DEPTH_FLOAT select the ImageRGBAUByteColorFloatDepth
encoding for the constructed image buffer. -/
theorem c5_default_encoding :
    (∀ (T : Type) (p : ParseState) (env : MainEnv T) (rank : Nat) (cfg : RunConfig T),
      p.colorFormatOpt = none → p.depthFormatOpt = none →
      MainLoop p env rank = .completed cfg →
      cfg.imageBuffer.imgType = ImageType.ImageRGBAUByteColorFloatDepth) ∧
    selectImageBuffer ColorType.COLOR_UBYTE DepthType.DEPTH_FLOAT =
      ImageType.ImageRGBAUByteColorFloatDepth := by
  constructor
  · intro T p env rank cfg hc hd h
    obtain ⟨_, _, hbuf, _⟩ := mainLoop_completed_fields p env rank cfg h
    rw [hbuf, hc, hd]
    rfl
  · rfl

/-- C5 witness: the default run's buffer carries the UByte-color float-depth
encoding. -/
theorem c5_default_encoding_witness :
    cfgDefault.imageBuffer.imgType = ImageType.ImageRGBAUByteColorFloatDepth :=
  c5_default_encoding.1 Unit pDefault envU 0 cfgDefault rfl rfl rfl

/-- C9: PositiveIntArg accepts an argument exactly when it is present and atoi
parses it to at least 1; and an invalid argument such as --width=0 makes parsing
fail, so MainLoop returns exit status 1. -/
theorem c9_positive_int_arg :
    (∀ arg : Option String,
      PositiveIntArg arg = ArgStatus.ARG_OK ↔ ∃ a, arg = some a ∧ 1 ≤ atoi a) ∧
    (∀ (T : Type) (p : ParseState) (env : MainEnv T) (rank : Nat),
      p.widthArg = some "0" → (MainLoop p env rank).exitCode = 1) := by
  constructor
  · intro arg
    cases arg with
    | none => simp [PositiveIntArg]
    | some a =>
      simp only [PositiveIntArg]
      by_cases h : atoi a < 1
      · rw [if_pos h]
        constructor
        · intro hbad
          exact absurd hbad (by decide)
        · rintro ⟨b, hb, hge⟩
          rw [Option.some.injEq] at hb
          subst hb
          omega
      · rw [if_neg h]
        constructor
        · intro _
          exact ⟨a, rfl, by omega⟩
        · intro _
          rfl
  · intro T p env rank hw
    have h0 : validatorRejects (some "0") = true := by decide
    have hpe : p.parseError = true := by
      simp [ParseState.parseError, hw, h0]
    simp [MainLoop, hpe, MainOutcome.exitCode]

/-- C9 witness: the width-zero run exits with status 1, and the string "5" is
accepted by the validator. -/
theorem c9_positive_int_arg_witness :
    (MainLoop pWidthZero envU 0).exitCode = 1 ∧
    PositiveIntArg (some "5") = ArgStatus.ARG_OK :=
  ⟨c9_positive_int_arg.2 Unit pWidthZero envU 0 rfl,
   (c9_positive_int_arg.1 (some "5")).mpr ⟨"5", rfl, by decide⟩⟩

/-- C10: whenever the chosen encoding's blend is order-dependent, MainLoop
multiplies every triangle color component of the distributed mesh by one half
before painting (leaving the triangles themselves unchanged); for
non-order-dependent encodings the mesh reaches the painter unchanged. -/
theorem c10_order_dependent_halves_colors :
    ∀ (T : Type) (p : ParseState) (env : MainEnv T) (rank : Nat) (cfg : RunConfig T),
      MainLoop p env rank = .completed cfg →
      (cfg.imageBuffer.imgType.blendIsOrderDependent = true →
        cfg.meshToRun.colorBuffer =
          cfg.distributedMesh.colorBuffer.map (fun c => c * (1 / 2)) ∧
        cfg.meshToRun.tris = cfg.distributedMesh.tris) ∧
      (cfg.imageBuffer.imgType.blendIsOrderDependent = false →
        cfg.meshToRun = cfg.distributedMesh) := by
  intro T p env rank cfg h
  obtain ⟨_, _, _, hm⟩ := mainLoop_completed_fields p env rank cfg h
  constructor
  · intro hod
    rw [hm]
    simp [hod, halveTriangleColors]
  · intro hod
    rw [hm]
    simp [hod]

/-- C10 witness: the depth-none run uses order-dependent blending, so its mesh
colors [1, 1/2] are each multiplied by one half before painting while the
triangles are untouched. -/
theorem c10_order_dependent_halves_colors_witness :
    cfgDepthNone.meshToRun.colorBuffer =
      cfgDepthNone.distributedMesh.colorBuffer.map (fun c => c * (1 / 2)) ∧
    cfgDepthNone.meshToRun.tris = cfgDepthNone.distributedMesh.tris ∧
    cfgDepthNone.meshToRun.colorBuffer = [1 * (1 / 2), 1 / 2 * (1 / 2)] :=
  ⟨((c10_order_dependent_halves_colors Unit pDepthNone envU 0 cfgDepthNone rfl).1
      rfl).1,
   ((c10_order_dependent_halves_colors Unit pDepthNone envU 0 cfgDepthNone rfl).1
      rfl).2,
   rfl⟩

/-- C7 witness: a concrete two-rank run with a 2 by 2 buffer - Gather's root is
0, rank 1 obtains the empty image and does not save the composite, which rank 0
does save. -/
theorem c7_gather_root_and_nonroot_empty_witness :
    (runRank collabU [meshU, meshU] bufU true timersU 1).fullCompositeImage.data = [] ∧
    (runRank collabU [meshU, meshU] bufU true timersU 1).gatherRootArg = 0 ∧
    SavedFile.composite ∉ (runRank collabU [meshU, meshU] bufU true timersU 1).savedFiles ∧
    SavedFile.composite ∈ (runRank collabU [meshU, meshU] bufU true timersU 0).savedFiles := by
  have h := c7_gather_root_and_nonroot_empty collabU [meshU, meshU] bufU true
    timersU 1 (by decide)
  exact ⟨h.2.2.2.2.2.2.1, h.1, h.2.2.2.2.2.2.2, h.2.2.2.1 rfl⟩

end MiniGraphics
